import Mathlib

/-!
# Verification of the SitingLab exclusion-layer / setback workflow

The SitingLab repository is a tutorial suite: its notebooks call external
libraries (the `Geotiff` handler, the `LayeredH5` handler, the composite
exclusion-mask computation and the setback calculators).  The bodies of
those operations are not part of the repository, so every operation below
is a shallow embedding modelled from the repository's specification and
the contracts narrated by the notebooks.  Rasters are 2-D grids of
rational pixel values; machine floats are modelled by `ℚ`.
-/

namespace SitingLab

/-- Raster profile: the metadata of a tagged grid file (driver, dtype,
no-data value, width/height, band count, CRS, affine transform).
Modelled from the spec: the profile dictionary shown by the
`Geotiff.profile` and `LayeredH5.profile` accessors. -/
structure Profile where
  driver : String
  dtype : String
  nodata : ℚ
  width : Nat
  height : Nat
  count : Nat
  crs : String
  transform : ℚ × ℚ × ℚ × ℚ × ℚ × ℚ
deriving DecidableEq

/-- A named 2-D layer: array of pixel values (list of rows), its profile
and optional free-text description metadata.  Modelled from the spec's
data model ("a named 2-D (or banded) array of numeric values ... plus
optional free-text description metadata"). -/
structure Layer where
  data : List (List ℚ)
  profile : Profile
  description : Option String := none
deriving DecidableEq

/-- A layered HDF5 store: a template grid plus an association list of
named layers.  Modelled from the spec: "a hierarchical key-value
container" whose layers all conform to one template Raster Grid. -/
structure LayeredH5 where
  template : Profile
  layers : List (String × Layer)
deriving DecidableEq

/-- A GeoTIFF file as produced by `Geotiff.write` / read back through
`Geotiff.values`: a profile plus the 2-D pixel array. -/
structure GeotiffFile where
  profile : Profile
  values : List (List ℚ)
deriving DecidableEq

/-- Build an `h × w` grid of pixel values from an index function. -/
def grid2 (h w : Nat) (f : Nat → Nat → ℚ) : List (List ℚ) :=
  (List.range h).map (fun i => (List.range w).map (fun j => f i j))

/-- Shape check: the 2-D array has exactly `h` rows, each of length `w`. -/
def shapeIs (d : List (List ℚ)) (h w : Nat) : Bool :=
  decide (d.length = h) && d.all (fun r => decide (r.length = w))

/-- Entry of a 2-D array at row `i`, column `j`, if in bounds. -/
def entryAt (d : List (List ℚ)) (i j : Nat) : Option ℚ :=
  (d.get? i).bind (fun r => r.get? j)

/-- Value of a layer at pixel `(i, j)`, defaulting to the layer's
no-data sentinel outside the stored array. -/
def layerValAt (l : Layer) (i j : Nat) : ℚ :=
  (((l.data.get? i).getD []).get? j).getD l.profile.nodata

/-- Look up a layer by name in a store. -/
def lookupLayer (h5 : LayeredH5) (name : String) : Option Layer :=
  (h5.layers.find? (fun p => p.1 == name)).map Prod.snd

/-- Whether a layer of the given name is present in the store. -/
def hasLayer (h5 : LayeredH5) (name : String) : Bool :=
  (lookupLayer h5 name).isSome

/-- Two profiles describe the same raster grid: same width, height,
affine transform and coordinate reference system. -/
def sameGrid (p q : Profile) : Bool :=
  decide (p.width = q.width) && decide (p.height = q.height) &&
    decide (p.transform = q.transform) && decide (p.crs = q.crs)

/-- Modelled from the spec: every raster contributed to a store is
"resampled/reprojected onto the template grid" before being written
(the resampling algorithm itself lives in the external library; it is
modelled as index-preserving reindexing onto the template shape with
no-data fill, which is the identity whenever the source already lies on
the template grid). -/
def conformToGrid (t : Profile) (l : Layer) : Layer :=
  if sameGrid l.profile t && shapeIs l.data t.height t.width then l
  else
    { data := grid2 t.height t.width (fun i j => layerValAt l i j)
      profile := { l.profile with
                    width := t.width, height := t.height
                    transform := t.transform, crs := t.crs }
      description := l.description }

/-- Modelled from the spec: `LayeredH5.write_layer_to_h5` — "Writing a
layer with a name that already exists either raises an error or
overwrites, governed by an explicit caller-supplied replace flag"; the
contributed raster is conformed to the template grid and stored with its
description metadata. -/
def write_layer_to_h5 (h5 : LayeredH5) (name : String) (l : Layer)
    (desc : Option String) (replace : Bool) : Except String LayeredH5 :=
  if hasLayer h5 name && !replace then
    .error ("layer " ++ name ++ " already exists in the store")
  else
    let c := conformToGrid h5.template l
    .ok { h5 with
          layers := (name, { c with description := desc }) ::
            h5.layers.filter (fun p => !(p.1 == name)) }

/-- Modelled from the spec: `LayeredH5.layer_to_geotiff` extracts a named
layer back out of the store as a raster file (profile plus pixel
values); referencing a layer name absent from the store is a
missing-layer error. -/
def layer_to_geotiff (h5 : LayeredH5) (name : String) :
    Except String GeotiffFile :=
  match lookupLayer h5 name with
  | some l => .ok ⟨l.profile, l.data⟩
  | none => .error ("layer " ++ name ++ " not found in the store")

/-- Horizontal coordinate of the center of pixel `(i, j)` under the
affine transform `(a, b, c, d, e, f)`: `a·(j+1/2) + b·(i+1/2) + c`. -/
def pixelX (t : Profile) (i j : Nat) : ℚ :=
  t.transform.1 * ((j : ℚ) + 1/2) + t.transform.2.1 * ((i : ℚ) + 1/2) +
    t.transform.2.2.1

/-- Vertical coordinate of the center of pixel `(i, j)` under the affine
transform `(a, b, c, d, e, f)`: `d·(j+1/2) + e·(i+1/2) + f`. -/
def pixelY (t : Profile) (i j : Nat) : ℚ :=
  t.transform.2.2.2.1 * ((j : ℚ) + 1/2) +
    t.transform.2.2.2.2.1 * ((i : ℚ) + 1/2) + t.transform.2.2.2.2.2

/-- Modelled from the spec: the per-pixel latitude coordinate array
"derived from the template grid" (the geographic reprojection of pixel
centers is external; the derivation from the template transform is what
is modelled). -/
def latitudeArray (t : Profile) : List (List ℚ) :=
  grid2 t.height t.width (fun i j => pixelY t i j)

/-- Modelled from the spec: the per-pixel longitude coordinate array
derived from the template grid. -/
def longitudeArray (t : Profile) : List (List ℚ) :=
  grid2 t.height t.width (fun i j => pixelX t i j)

/-- Modelled from the spec: `LayeredH5.create_new` — creating a new
layered store from a template file populates exactly the two reserved
coordinate layers `latitude` and `longitude` derived from the template
grid. -/
def create_new (t : Profile) : LayeredH5 :=
  { template := t
    layers := [("latitude", { data := latitudeArray t, profile := t }),
               ("longitude", { data := longitudeArray t, profile := t })] }

/-- An exclusion rule for one layer.  Modelled from the spec: a policy
of the form `exclude_values`, `exclude_range`, `include_values` or
`include_range`. -/
inductive ExclusionRule where
  | exclude_values (vs : List ℚ)
  | exclude_range (lo hi : ℚ)
  | include_values (vs : List ℚ)
  | include_range (lo hi : ℚ)
deriving DecidableEq

/-- Per-layer inclusion decision of one rule at one pixel value. -/
def ruleIncludes (r : ExclusionRule) (v : ℚ) : Bool :=
  match r with
  | .exclude_values vs => !(vs.any (fun x => decide (x = v)))
  | .exclude_range lo hi => !(decide (lo ≤ v) && decide (v ≤ hi))
  | .include_values vs => vs.any (fun x => decide (x = v))
  | .include_range lo hi => decide (lo ≤ v) && decide (v ≤ hi)

/-- Combined inclusion decision at pixel `(i, j)`: the logical AND of
the per-layer inclusion decisions of every rule in the exclusion
dictionary (a pixel survives only if no referenced layer excludes it). -/
def includedAt (h5 : LayeredH5) (rules : List (String × ExclusionRule))
    (i j : Nat) : Bool :=
  rules.all (fun p =>
    match lookupLayer h5 p.1 with
    | some l => ruleIncludes p.2 (layerValAt l i j)
    | none => false)

/-- Modelled from the spec: `ExclusionMaskFromDict.run` — given a store
and an exclusion dictionary, compute one composite mask over the
template grid, with the inclusion convention 1.0 = fully included and
0.0 = fully excluded; a rule referencing a layer name absent from the
store is a missing-layer error.  The store is threaded through
unchanged to make non-mutation explicit. -/
def exclusionMaskFromDict (h5 : LayeredH5)
    (rules : List (String × ExclusionRule)) :
    Except String (List (List ℚ) × LayeredH5) :=
  if rules.all (fun p => hasLayer h5 p.1) then
    .ok (grid2 h5.template.height h5.template.width
          (fun i j => if includedAt h5 rules i j then 1 else 0), h5)
  else .error "exclusion dictionary references a missing layer"

/-- The caller-side inversion `1 - mask` that converts the inclusion
mask into an exclusion-oriented layer, as done in the tutorial. -/
def oneMinus (d : List (List ℚ)) : List (List ℚ) :=
  d.map (fun r => r.map (fun v => 1 - v))

/-- Wind setback regulations.  Modelled from the spec: records the
turbine hub height and rotor diameter (and a multiplier) and derives
the base setback distance from the turbine geometry. -/
structure WindSetbackRegulations where
  hub_height : ℚ
  rotor_diameter : ℚ
  multiplier : ℚ
deriving DecidableEq

/-- Modelled from the spec: "hub height + half rotor diameter" — the
base setback distance is the turbine max tip height. -/
def WindSetbackRegulations.base_setback_dist
    (r : WindSetbackRegulations) : ℚ :=
  r.hub_height + r.rotor_diameter / 2

/-- Modelled from the spec: the generic (non-regulation-table) distance
policy applies "one uniform base distance times a multiplier to the
entire grid". -/
def WindSetbackRegulations.setback_distance
    (r : WindSetbackRegulations) : ℚ :=
  r.base_setback_dist * r.multiplier

/-- The value type of a regulation row: flat meters, a hub-height
multiplier or a max-tip-height multiplier. -/
inductive ValueType where
  | meters
  | hubHeightMultiplier
  | maxTipHeightMultiplier
deriving DecidableEq

/-- One row of a regulation table: (feature type, optional feature
subtype, value type, numeric value, region identifier). -/
structure RegulationRow where
  featureType : String
  featureSubtype : Option String
  valueType : ValueType
  value : ℚ
  fips : ℚ
deriving DecidableEq

/-- Look up the regulation row for a region identifier. -/
def lookupRegulation (table : List RegulationRow) (f : ℚ) :
    Option RegulationRow :=
  table.find? (fun row => decide (row.fips = f))

/-- Modelled from the spec: resolve a regulation row's value-type
specific distance — flat meters, or a hub-height / max-tip-height
multiplier combined with the supplied turbine geometry. -/
def resolveDistance (hh rd : ℚ) (row : RegulationRow) : ℚ :=
  match row.valueType with
  | .meters => row.value
  | .hubHeightMultiplier => hh * row.value
  | .maxTipHeightMultiplier => (hh + rd / 2) * row.value

/-- Modelled from the spec: the per-pixel regulation-driven setback
decision.  A pixel whose region identifier has no row in the regulation
table receives no setback and is fully included (value 1); a pixel in a
regulated region is excluded (value 0) exactly when its cell-center
distance to the feature is below the row's resolved distance. -/
def regulatedMaskAt (table : List RegulationRow) (hh rd : ℚ)
    (f : ℚ) (d : ℚ) : ℚ :=
  match lookupRegulation table f with
  | none => 1
  | some row => if d < resolveDistance hh rd row then 0 else 1

/-- Modelled from the spec: the generic per-pixel setback decision for
a uniform distance `sd` — a pixel is excluded (value 0) exactly when
its cell-center distance to the feature is below `sd`. -/
def genericMaskAt (sd : ℚ) (d : ℚ) : ℚ :=
  if d < sd then 0 else 1

/-- Modelled from the spec: the setback calculator's `run`.  The vector
feature set is abstracted by its per-pixel cell-center distance field
`dists` (buffering geometry is external).  Distance policy resolution
order: if a regulation table is supplied AND the store has the
per-pixel region layer (stored under the exact name `cnty_fips`), the
region at each pixel is looked up and the row's value-type specific
distance applied; otherwise one uniform base distance times the
multiplier is applied to the entire grid. -/
def setbacksRun (h5 : LayeredH5) (regs : WindSetbackRegulations)
    (table : Option (List RegulationRow)) (dists : Nat → Nat → ℚ) :
    List (List ℚ) :=
  let h := h5.template.height
  let w := h5.template.width
  match table with
  | none => grid2 h w (fun i j => genericMaskAt regs.setback_distance (dists i j))
  | some t =>
    match lookupLayer h5 "cnty_fips" with
    | none => grid2 h w (fun i j => genericMaskAt regs.setback_distance (dists i j))
    | some fl =>
        grid2 h w (fun i j =>
          regulatedMaskAt t regs.hub_height regs.rotor_diameter
            (layerValAt fl i j) (dists i j))

/-- The set of pixels excluded by a uniform setback distance `sd` on an
`h × w` grid with per-pixel feature distances `dists`: exactly the
pixels whose generic setback decision is 0. -/
def excludedPixels (h w : Nat) (dists : Nat → Nat → ℚ) (sd : ℚ) :
    List (Nat × Nat) :=
  (List.range h).flatMap (fun i =>
    (List.range w).filterMap (fun j =>
      if genericMaskAt sd (dists i j) = 0 then some (i, j) else none))

/-- One list of pixel indices is a strict superset of another:
it contains every element of the other and at least one more. -/
def strictSuperset (bigger smaller : List (Nat × Nat)) : Prop :=
  (∀ p ∈ smaller, p ∈ bigger) ∧ ∃ p ∈ bigger, p ∉ smaller

/-- A layer conforms to the template grid `t`: its array has shape
`(t.height, t.width)` and its profile carries `t`'s transform, CRS and
dimensions. -/
def layerConforms (t : Profile) (l : Layer) : Bool :=
  shapeIs l.data t.height t.width &&
    decide (l.profile.transform = t.transform) &&
    decide (l.profile.crs = t.crs) &&
    decide (l.profile.width = t.width) &&
    decide (l.profile.height = t.height)

/-- Every layer of the store conforms to the store's template grid. -/
def gridConformant (h5 : LayeredH5) : Bool :=
  h5.layers.all (fun p => layerConforms h5.template p.2)

/-- The stores reachable by the assembly workflow: a freshly created
store, or the successful write of one more layer. -/
inductive Built : LayeredH5 → Prop where
  | base (t : Profile) : Built (create_new t)
  | step {h5 h5' : LayeredH5} {name : String} {l : Layer}
      {desc : Option String} {replace : Bool} : Built h5 →
      write_layer_to_h5 h5 name l desc replace = .ok h5' → Built h5'

/-- A small concrete raster profile used in concrete evaluations
(a 2×2 excerpt of the tutorial grid: 90 m pixels, EPSG:5070). -/
def demoProfile : Profile :=
  { driver := "GTiff", dtype := "uint8", nodata := 255, width := 2,
    height := 2, count := 1, crs := "+init=epsg:5070",
    transform := (90, 0, 1829980, 0, -90, 2297068) }

/-- A small concrete binary setback layer on the demo grid. -/
def demoLayer : Layer :=
  { data := [[0, 1], [1, 0]], profile := demoProfile }

/-- A small concrete store holding one setback layer. -/
def demoStore : LayeredH5 :=
  { template := demoProfile
    layers := [("setbacks_pipeline_reference", demoLayer)] }

/-- A one-entry exclusion dictionary excluding pixels of value 1 in the
demo setback layer, as in the tutorial. -/
def demoRules : List (String × ExclusionRule) :=
  [("setbacks_pipeline_reference", ExclusionRule.exclude_values [1])]

/-- The composite inclusion mask of the demo store under `demoRules`. -/
def demoMask0 : List (List ℚ) := [[1, 0], [0, 1]]

/-- The demo regulation row for region 1 from the tutorial: a railroad
setback of 3 hub heights. -/
def demoReg1 : RegulationRow :=
  { featureType := "railroads", featureSubtype := none,
    valueType := .hubHeightMultiplier, value := 3, fips := 1 }

/-- The demo regulation row for region 2 from the tutorial: a railroad
setback of 7 max tip heights. -/
def demoReg2 : RegulationRow :=
  { featureType := "railroads", featureSubtype := none,
    valueType := .maxTipHeightMultiplier, value := 7, fips := 2 }

/-- The demo regulation row for region 3 from the tutorial: a flat
2000 m railroad setback. -/
def demoReg3 : RegulationRow :=
  { featureType := "railroads", featureSubtype := none,
    valueType := .meters, value := 2000, fips := 3 }

/-- The tutorial's demo regulation table: rows for region identifiers
1, 2 and 3 only (none for region 4). -/
def demoRegulationTable : List RegulationRow := [demoReg1, demoReg2, demoReg3]

/-- The tutorial's four-quadrant demo FIPS value at pixel `(i, j)` of an
`n × n` grid: starting from 1, columns at or past `n / 2` gain 1 and
rows at or past `n / 2` gain 2, giving quadrant identifiers 1–4. -/
def fipsQuadrant (n i j : Nat) : ℚ :=
  1 + (if n / 2 ≤ j then 1 else 0) + (if n / 2 ≤ i then 2 else 0)

/-- A concrete region-identifier layer stored under a name other than
`cnty_fips`. -/
def demoFipsLayer : Layer :=
  { data := [[1, 2], [3, 4]], profile := demoProfile }

/-- A concrete store whose region-identifier layer is stored under the
wrong name `county_fips`. -/
def demoStoreWrongName : LayeredH5 :=
  { template := demoProfile, layers := [("county_fips", demoFipsLayer)] }

/-- The demo store after writing the demo layer into a fresh store
under the tutorial's layer name. -/
def demoStoreWritten : LayeredH5 :=
  { template := demoProfile
    layers := ("nexrad_green_los",
        { demoLayer with description := some "NEXRAD Line of sight" }) ::
      (create_new demoProfile).layers }

theorem grid2_entry (h w : Nat) (f : Nat → Nat → ℚ) {i j : Nat}
    (hi : i < h) (hj : j < w) :
    entryAt (grid2 h w f) i j = some (f i j) := by
  simp [entryAt, grid2, List.getElem?_map, List.getElem?_range, hi, hj]

theorem grid2_shape (h w : Nat) (f : Nat → Nat → ℚ) :
    shapeIs (grid2 h w f) h w = true := by
  simp [shapeIs, grid2, List.all_eq_true]

theorem mem_excludedPixels {h w : Nat} {dists : Nat → Nat → ℚ} {sd : ℚ}
    {p : Nat × Nat} :
    p ∈ excludedPixels h w dists sd ↔
      p.1 < h ∧ p.2 < w ∧ dists p.1 p.2 < sd := by
  obtain ⟨i, j⟩ := p
  simp only [excludedPixels, List.mem_flatMap, List.mem_filterMap,
    List.mem_range, genericMaskAt]
  constructor
  · rintro ⟨i', hi', j', hj', hcond⟩
    split at hcond
    · obtain ⟨rfl, rfl⟩ := Prod.mk.injEq .. ▸ Option.some.inj hcond
      exact ⟨hi', hj', by assumption⟩
    · exact absurd hcond (by simp)
  · rintro ⟨hi, hj, hd⟩
    exact ⟨i, hi, j, hj, by simp [hd]⟩

theorem conformToGrid_conforms (t : Profile) (l : Layer) :
    layerConforms t (conformToGrid t l) = true := by
  unfold conformToGrid
  split
  · rename_i hcond
    rw [Bool.and_eq_true] at hcond
    obtain ⟨hg, hs⟩ := hcond
    unfold sameGrid at hg
    simp only [Bool.and_eq_true, decide_eq_true_eq] at hg
    obtain ⟨⟨⟨hw, hh⟩, ht⟩, hc⟩ := hg
    simp [layerConforms, hs, hw, hh, ht, hc]
  · simp [layerConforms, grid2_shape]

theorem layerConforms_description (t : Profile) (l : Layer)
    (d : Option String) :
    layerConforms t { l with description := d } = layerConforms t l := by
  simp [layerConforms]

theorem write_ok_layers {h5 h5' : LayeredH5} {name : String} {l : Layer}
    {desc : Option String} {replace : Bool}
    (hw : write_layer_to_h5 h5 name l desc replace = .ok h5') :
    h5'.template = h5.template ∧
      h5'.layers = (name, { conformToGrid h5.template l with
                            description := desc }) ::
        h5.layers.filter (fun p => !(p.1 == name)) := by
  unfold write_layer_to_h5 at hw
  split at hw
  · exact absurd hw (by simp)
  · injection hw with h
    subst h
    exact ⟨rfl, rfl⟩

theorem lookupLayer_write_self {h5 h5' : LayeredH5} {name : String}
    {l : Layer} {desc : Option String} {replace : Bool}
    (hw : write_layer_to_h5 h5 name l desc replace = .ok h5') :
    lookupLayer h5' name =
      some { conformToGrid h5.template l with description := desc } := by
  obtain ⟨-, hl⟩ := write_ok_layers hw
  rw [lookupLayer, hl, List.find?_cons_of_pos _ (by simp)]
  rfl

/-- C1: for every turbine geometry with hub height `hh` and rotor
diameter `rd`, the base setback distance computed by the wind setback
regulations equals `hh + rd / 2`; in particular, for hub height 115 m
and rotor diameter 50 m the base setback distance is 140 m. -/
theorem C1_base_setback_dist (hh rd mult : ℚ) :
    (WindSetbackRegulations.mk hh rd mult).base_setback_dist =
        hh + rd / 2 ∧
      (WindSetbackRegulations.mk 115 50 1).base_setback_dist = 140 :=
  ⟨rfl, by norm_num [WindSetbackRegulations.base_setback_dist]⟩

/-- C2 (counterexample): for a feature set lying 1000 m from the only
pixel of the grid, the 1.7-multiplier exclusion set is NOT a strict
superset of the unmultiplied exclusion set (both are empty), so the
strict-superset part of the claim fails for some feature sets. -/
theorem C2_counterexample :
    ¬ strictSuperset
        (excludedPixels 1 1 (fun _ _ => 1000)
          (WindSetbackRegulations.mk 115 50 (17/10)).setback_distance)
        (excludedPixels 1 1 (fun _ _ => 1000)
          (WindSetbackRegulations.mk 115 50 1).setback_distance) := by
  intro hss
  obtain ⟨-, p, hp, -⟩ := hss
  have h238 : (WindSetbackRegulations.mk 115 50 (17/10)).setback_distance =
      238 := by
    norm_num [WindSetbackRegulations.setback_distance,
      WindSetbackRegulations.base_setback_dist]
  rw [h238] at hp
  have hemp : excludedPixels 1 1 (fun _ _ => 1000) 238 = [] := by decide
  rw [hemp] at hp
  exact absurd hp (List.not_mem_nil p)

/-- C2 (amended): with multiplier 1.7 the setback distance is
140 × 1.7 = 238 m, strictly larger than the unmultiplied 140 m; on
every grid and for every feature set the set of excluded pixels at
distance 238 contains the set of excluded pixels at distance 140, and
the containment is strict whenever some pixel's cell-center distance to
the feature lies in the band [140 m, 238 m). -/
theorem C2_multiplier_monotonicity (h w : Nat) (dists : Nat → Nat → ℚ) :
    (WindSetbackRegulations.mk 115 50 (17/10)).setback_distance = 238 ∧
      (WindSetbackRegulations.mk 115 50 1).setback_distance = 140 ∧
      (WindSetbackRegulations.mk 115 50 1).setback_distance <
        (WindSetbackRegulations.mk 115 50 (17/10)).setback_distance ∧
      (∀ p ∈ excludedPixels h w dists 140,
        p ∈ excludedPixels h w dists 238) ∧
      ((∃ i j, i < h ∧ j < w ∧ 140 ≤ dists i j ∧ dists i j < 238) →
        strictSuperset (excludedPixels h w dists 238)
          (excludedPixels h w dists 140)) := by
  have hsub : ∀ p ∈ excludedPixels h w dists 140,
      p ∈ excludedPixels h w dists 238 := by
    intro p hp
    obtain ⟨hp1, hp2, hp3⟩ := mem_excludedPixels.mp hp
    exact mem_excludedPixels.mpr ⟨hp1, hp2, hp3.trans (by norm_num)⟩
  refine ⟨?_, ?_, ?_, hsub, ?_⟩
  · norm_num [WindSetbackRegulations.setback_distance,
      WindSetbackRegulations.base_setback_dist]
  · norm_num [WindSetbackRegulations.setback_distance,
      WindSetbackRegulations.base_setback_dist]
  · norm_num [WindSetbackRegulations.setback_distance,
      WindSetbackRegulations.base_setback_dist]
  · rintro ⟨i, j, hi, hj, hlo, hhi⟩
    refine ⟨hsub, (i, j), mem_excludedPixels.mpr ⟨hi, hj, hhi⟩,
      fun hmem => ?_⟩
    exact absurd (mem_excludedPixels.mp hmem).2.2 (not_lt.mpr hlo)

/-- C2 (witness): a concrete 1×1 grid whose pixel lies 200 m from the
feature: containment holds, and since 200 is inside the band [140, 238)
the containment is strict there. -/
theorem C2_witness :
    (∀ p ∈ excludedPixels 1 1 (fun _ _ => 200) 140,
        p ∈ excludedPixels 1 1 (fun _ _ => 200) 238) ∧
      strictSuperset (excludedPixels 1 1 (fun _ _ => 200) 238)
        (excludedPixels 1 1 (fun _ _ => 200) 140) :=
  ⟨(C2_multiplier_monotonicity 1 1 (fun _ _ => 200)).2.2.2.1,
   (C2_multiplier_monotonicity 1 1 (fun _ _ => 200)).2.2.2.2
     ⟨0, 0, by decide, by decide, by decide, by decide⟩⟩

theorem entryAt_oneMinus (d : List (List ℚ)) (i j : Nat) :
    entryAt (oneMinus d) i j = (entryAt d i j).map (fun v => 1 - v) := by
  simp only [entryAt, oneMinus, List.get?_eq_getElem?, List.getElem?_map]
  cases d[i]? with
  | none => rfl
  | some r => simp [List.getElem?_map]

/-- C3: for every store and exclusion-rule mapping, the mask returned by
the composite exclusion mask computation uses the inclusion convention:
a pixel value of 1 means the pixel is fully included (it survives every
rule) and 0 means it is fully excluded; a caller who wants an
exclusion-oriented layer must compute `1 - mask` themselves, which flips
the polarity. -/
theorem C3_inclusion_convention (h5 : LayeredH5)
    (rules : List (String × ExclusionRule)) (mask : List (List ℚ))
    (s : LayeredH5) (i j : Nat)
    (hrun : exclusionMaskFromDict h5 rules = .ok (mask, s))
    (hi : i < h5.template.height) (hj : j < h5.template.width) :
    entryAt mask i j = some (if includedAt h5 rules i j then 1 else 0) ∧
      (includedAt h5 rules i j = true → entryAt mask i j = some 1) ∧
      (includedAt h5 rules i j = false → entryAt mask i j = some 0) ∧
      entryAt (oneMinus mask) i j =
        some (if includedAt h5 rules i j then 0 else 1) := by
  unfold exclusionMaskFromDict at hrun
  split at hrun
  · injection hrun with hpair
    injection hpair with hm hs
    subst hm
    subst hs
    have he : entryAt (grid2 h5.template.height h5.template.width
          (fun i j => if includedAt h5 rules i j then 1 else 0)) i j =
        some (if includedAt h5 rules i j then 1 else 0) :=
      grid2_entry _ _ _ hi hj
    refine ⟨he, ?_, ?_, ?_⟩
    · intro hinc
      rw [he]
      simp [hinc]
    · intro hinc
      rw [he]
      simp [hinc]
    · rw [entryAt_oneMinus, he]
      cases hinc : includedAt h5 rules i j <;> norm_num [hinc]
  · exact absurd hrun (by simp)

/-- C3 (witness): the demo store and demo exclusion dictionary, at pixel
(0, 0). -/
theorem C3_witness :
    entryAt demoMask0 0 0 =
        some (if includedAt demoStore demoRules 0 0 then 1 else 0) ∧
      (includedAt demoStore demoRules 0 0 = true →
        entryAt demoMask0 0 0 = some 1) ∧
      (includedAt demoStore demoRules 0 0 = false →
        entryAt demoMask0 0 0 = some 0) ∧
      entryAt (oneMinus demoMask0) 0 0 =
        some (if includedAt demoStore demoRules 0 0 then 0 else 1) :=
  C3_inclusion_convention demoStore demoRules demoMask0 demoStore 0 0
    (by rfl) (by decide) (by decide)

/-- C7: the composite exclusion mask computation is deterministic and
does not mutate the store: a successful run returns the store unchanged,
and running it again on the returned store with the same rule mapping
returns the identical output array. -/
theorem C7_idempotence (h5 s : LayeredH5)
    (rules : List (String × ExclusionRule)) (mask : List (List ℚ))
    (hrun : exclusionMaskFromDict h5 rules = .ok (mask, s)) :
    s = h5 ∧ exclusionMaskFromDict s rules = .ok (mask, s) := by
  unfold exclusionMaskFromDict at hrun ⊢
  split at hrun
  · rename_i hall
    injection hrun with hpair
    injection hpair with hm hs
    subst hm
    subst hs
    simp [hall]
  · exact absurd hrun (by simp)

/-- C7 (witness): the demo store and demo exclusion dictionary. -/
theorem C7_witness :
    demoStore = demoStore ∧
      exclusionMaskFromDict demoStore demoRules = .ok (demoMask0, demoStore) :=
  C7_idempotence demoStore demoStore demoRules demoMask0 (by rfl)

/-- C4: in a regulation-driven setback computation, every pixel whose
region identifier has no row in the regulation table receives no setback
and is fully included (value 1, no default policy being modelled);
pixels in regions that do have a row receive the distance derived from
that row's value type and value.  In the four-quadrant scenario with
regulations for region ids 1–3 and none for id 4, every pixel of the
fourth quadrant is fully included. -/
theorem C4_regional_regulation_lookup :
    (∀ (table : List RegulationRow) (hh rd f d : ℚ),
        lookupRegulation table f = none →
          regulatedMaskAt table hh rd f d = 1) ∧
      (∀ (table : List RegulationRow) (hh rd f d : ℚ)
          (row : RegulationRow), lookupRegulation table f = some row →
          regulatedMaskAt table hh rd f d =
            if d < resolveDistance hh rd row then 0 else 1) ∧
      (∀ (n i j : Nat) (d : ℚ), n / 2 ≤ i → n / 2 ≤ j →
          regulatedMaskAt demoRegulationTable 115 50
            (fipsQuadrant n i j) d = 1) := by
  refine ⟨?_, ?_, ?_⟩
  · intro table hh rd f d hnone
    rw [regulatedMaskAt, hnone]
  · intro table hh rd f d row hrow
    rw [regulatedMaskAt, hrow]
  · intro n i j d hi hj
    have h4 : fipsQuadrant n i j = 4 := by
      rw [fipsQuadrant, if_pos hj, if_pos hi]
      norm_num
    rw [h4, regulatedMaskAt,
      show lookupRegulation demoRegulationTable 4 = none from by decide]

/-- C4 (witness): on a 4×4 quadrant layer, the bottom-right pixel
(3, 3) has region id 4 and is fully included, while region id 3 (flat
2000 m rule) excludes a pixel 100 m from the feature. -/
theorem C4_witness :
    regulatedMaskAt demoRegulationTable 115 50 (fipsQuadrant 4 3 3) 5 = 1 ∧
      regulatedMaskAt demoRegulationTable 115 50 3 100 =
        if (100 : ℚ) < resolveDistance 115 50 demoReg3 then 0 else 1 :=
  ⟨C4_regional_regulation_lookup.2.2 4 3 3 5 (by decide) (by decide),
   C4_regional_regulation_lookup.2.1 demoRegulationTable 115 50 3 100
     demoReg3 (by decide)⟩

/-- C5: writing a grid-conformant layer into a store and extracting it
back to a raster file reproduces the original pixel values exactly, and
the profile (driver, dtype, no-data, width/height, band count, CRS,
transform) round-trips exactly through the write followed by the
read. -/
theorem C5_roundtrip (h5 : LayeredH5) (name : String) (l : Layer)
    (desc : Option String)
    (hg : sameGrid l.profile h5.template = true)
    (hs : shapeIs l.data h5.template.height h5.template.width = true) :
    ∃ h5', write_layer_to_h5 h5 name l desc true = .ok h5' ∧
      layer_to_geotiff h5' name = .ok ⟨l.profile, l.data⟩ := by
  have hwEq : write_layer_to_h5 h5 name l desc true =
      .ok { h5 with
            layers := (name, { conformToGrid h5.template l with
                               description := desc }) ::
              h5.layers.filter (fun p => !(p.1 == name)) } := by
    unfold write_layer_to_h5
    simp
  have hid : conformToGrid h5.template l = l := by
    rw [conformToGrid, if_pos]
    rw [hg, hs]
    rfl
  refine ⟨_, hwEq, ?_⟩
  rw [layer_to_geotiff, lookupLayer_write_self hwEq, hid]

/-- C5 (witness): the demo layer written into a fresh demo store under
the tutorial's layer name and extracted back. -/
theorem C5_witness :
    ∃ h5', write_layer_to_h5 (create_new demoProfile) "nexrad_green_los"
        demoLayer (some "NEXRAD Line of sight") true = .ok h5' ∧
      layer_to_geotiff h5' "nexrad_green_los" =
        .ok ⟨demoLayer.profile, demoLayer.data⟩ :=
  C5_roundtrip (create_new demoProfile) "nexrad_green_los" demoLayer
    (some "NEXRAD Line of sight") (by decide) (by decide)

/-- C6: grid-conformance invariant — every store built by the assembly
workflow (a fresh store followed by any sequence of successful layer
writes) has all its layers on the template grid: each stored array has
shape (height, width) of the template and each stored profile carries
the template's transform and CRS, so all layers share exactly one
raster grid. -/
theorem C6_grid_conformance (h5 : LayeredH5) (hb : Built h5) :
    gridConformant h5 = true := by
  induction hb with
  | base t =>
      simp [gridConformant, create_new, layerConforms, latitudeArray,
        longitudeArray, grid2_shape]
  | step hb hw ih =>
      obtain ⟨ht, hl⟩ := write_ok_layers hw
      rw [gridConformant, ht, hl, List.all_cons, Bool.and_eq_true]
      refine ⟨?_, ?_⟩
      · rw [layerConforms_description]
        exact conformToGrid_conforms _ _
      · rw [List.all_eq_true]
        intro p hp
        have hp' : p ∈ _ := List.mem_of_mem_filter hp
        rw [gridConformant, List.all_eq_true] at ih
        exact ih p hp'

/-- C6 (witness): a freshly created demo store is grid conformant. -/
theorem C6_witness : gridConformant (create_new demoProfile) = true :=
  C6_grid_conformance (create_new demoProfile) (Built.base demoProfile)

/-- C8: for a layer name already present in a store, a write under that
name with `replace = false` raises an error rather than silently
overwriting, while the same write with `replace = true` succeeds and
overwrites, so which of the two happens is governed solely by the
caller-supplied replace flag. -/
theorem C8_replace_flag (h5 : LayeredH5) (name : String) (l : Layer)
    (desc : Option String) (hpres : hasLayer h5 name = true) :
    (∃ e, write_layer_to_h5 h5 name l desc false = .error e) ∧
      ∃ h5', write_layer_to_h5 h5 name l desc true = .ok h5' ∧
        lookupLayer h5' name =
          some { conformToGrid h5.template l with description := desc } := by
  constructor
  · refine ⟨"layer " ++ name ++ " already exists in the store", ?_⟩
    rw [write_layer_to_h5, if_pos]
    rw [hpres]
    rfl
  · have hwEq : write_layer_to_h5 h5 name l desc true =
        .ok { h5 with
              layers := (name, { conformToGrid h5.template l with
                                 description := desc }) ::
                h5.layers.filter (fun p => !(p.1 == name)) } := by
      unfold write_layer_to_h5
      simp
    exact ⟨_, hwEq, lookupLayer_write_self hwEq⟩

/-- C8 (witness): re-writing the layer name already present in the demo
store. -/
theorem C8_witness :
    (∃ e, write_layer_to_h5 demoStore "setbacks_pipeline_reference"
        demoLayer none false = .error e) ∧
      ∃ h5', write_layer_to_h5 demoStore "setbacks_pipeline_reference"
          demoLayer none true = .ok h5' ∧
        lookupLayer h5' "setbacks_pipeline_reference" =
          some { conformToGrid demoStore.template demoLayer with
                 description := none } :=
  C8_replace_flag demoStore "setbacks_pipeline_reference" demoLayer none
    (by decide)

/-- C9: a freshly created layered store contains exactly the two
reserved layers `latitude` and `longitude`, each holding the per-pixel
coordinate array of shape (height, width) derived from the template
grid, and no other layers; every layer subsequently written is stored
under its given name with its attached description metadata. -/
theorem C9_fresh_store_reserved_layers :
    (∀ t : Profile,
        (create_new t).layers.map Prod.fst = ["latitude", "longitude"] ∧
        lookupLayer (create_new t) "latitude" =
          some { data := latitudeArray t, profile := t } ∧
        lookupLayer (create_new t) "longitude" =
          some { data := longitudeArray t, profile := t } ∧
        shapeIs (latitudeArray t) t.height t.width = true ∧
        shapeIs (longitudeArray t) t.height t.width = true) ∧
      ∀ (h5 h5' : LayeredH5) (name : String) (l : Layer)
        (desc : Option String) (replace : Bool),
        write_layer_to_h5 h5 name l desc replace = .ok h5' →
        lookupLayer h5' name =
          some { conformToGrid h5.template l with description := desc } := by
  constructor
  · intro t
    exact ⟨rfl, rfl, rfl, grid2_shape .., grid2_shape ..⟩
  · intro h5 h5' name l desc replace hw
    exact lookupLayer_write_self hw

/-- C9 (witness): the write of the demo layer into a fresh demo store
is stored under its name with its description. -/
theorem C9_witness :
    lookupLayer demoStoreWritten "nexrad_green_los" =
      some { conformToGrid (create_new demoProfile).template demoLayer with
             description := some "NEXRAD Line of sight" } :=
  C9_fresh_store_reserved_layers.2 (create_new demoProfile) demoStoreWritten
    "nexrad_green_los" demoLayer (some "NEXRAD Line of sight") true (by rfl)

/-- C10: the regional regulation lookup reads the region-identifier
layer under the exact name `cnty_fips`; on a store whose region layer is
stored under any other name (and which therefore has no `cnty_fips`
layer), a setback computation given a regulation table does not apply
the regional regulations — it falls back to the uniform distance
policy, identical to running without the table. -/
theorem C10_cnty_fips_layer_name (h5 : LayeredH5)
    (regs : WindSetbackRegulations) (table : List RegulationRow)
    (dists : Nat → Nat → ℚ) (otherName : String) (fl : Layer)
    (_hother : lookupLayer h5 otherName = some fl)
    (_hne : otherName ≠ "cnty_fips")
    (habsent : hasLayer h5 "cnty_fips" = false) :
    setbacksRun h5 regs (some table) dists =
      setbacksRun h5 regs none dists := by
  cases hcf : lookupLayer h5 "cnty_fips" with
  | some x =>
      rw [hasLayer, hcf] at habsent
      exact absurd habsent (by simp)
  | none => simp only [setbacksRun, hcf]

/-- C10 (witness): the demo store whose region layer sits under the
name `county_fips` instead of `cnty_fips`. -/
theorem C10_witness :
    setbacksRun demoStoreWrongName (WindSetbackRegulations.mk 115 50 1)
        (some demoRegulationTable) (fun _ _ => 100) =
      setbacksRun demoStoreWrongName (WindSetbackRegulations.mk 115 50 1)
        none (fun _ _ => 100) :=
  C10_cnty_fips_layer_name demoStoreWrongName
    (WindSetbackRegulations.mk 115 50 1) demoRegulationTable
    (fun _ _ => 100) "county_fips" demoFipsLayer (by rfl) (by decide)
    (by rfl)

end SitingLab
